import Mathlib

/-!
Shallow embedding of the Miktos skill library (modeling_tools.py and
shading_tools.py). Each Python skill becomes a Lean function; Python floats
become exact rationals, Python ints become integers, and the response
envelope (a dict) becomes an association list of string keys to values.
The elapsed wall-clock time measured by each skill is passed in as an
explicit parameter `t`. Dictionary indexing that can raise a KeyError is
modelled with `Except`.
-/

/-- A Python value as it appears in a skill response envelope. -/
inductive Value where
  | str (s : String)
  | num (q : ℚ)
  | int (n : ℤ)
  | bool (b : Bool)
  | tup (l : List Value)
  | list (l : List Value)
  | dict (l : List (String × Value))

/-- A Python exception escaping a skill. Only dictionary indexing with a
missing key (KeyError) can raise in this library. -/
inductive PyErr where
  | keyError (k : String)
deriving DecidableEq

/-- A response envelope: the dict literal a skill returns, as an association
list preserving key order. -/
abbrev Env := List (String × Value)

/-- Embeds a Python 3-tuple of floats as a `Value`. -/
def triple (x : ℚ × ℚ × ℚ) : Value :=
  Value.tup [Value.num x.1, Value.num x.2.1, Value.num x.2.2]

/-- Python str.lower (ASCII): every character lowercased. -/
def pyLower (s : String) : String :=
  String.mk (s.data.map Char.toLower)

/-- Python str.upper (ASCII): every character uppercased. -/
def pyUpper (s : String) : String :=
  String.mk (s.data.map Char.toUpper)

/-- Python str.capitalize: first character uppercased, the rest lowercased. -/
def pyCapitalize (s : String) : String :=
  match s.data with
  | [] => ""
  | c :: cs => String.mk (Char.toUpper c :: cs.map Char.toLower)

/-- modeling_tools.create_primitive, line 61: the valid primitive types. -/
def valid_primitives : List String :=
  ["cube", "sphere", "cylinder", "cone", "plane", "torus"]

/-- modeling_tools.create_primitive, lines 87-94: the static per-type
vertex/face table, as a partial map (Python dict lookup). -/
def geometry_data (k : String) : Option (ℤ × ℤ) :=
  if k = "cube" then some (8, 6)
  else if k = "sphere" then some (482, 480)
  else if k = "cylinder" then some (64, 62)
  else if k = "cone" then some (33, 31)
  else if k = "plane" then some (4, 1)
  else if k = "torus" then some (576, 576)
  else none

/-- modeling_tools.create_primitive (lines 16-111). Validates the primitive
type case-insensitively, then the size; generates a name when none is given;
then indexes `geometry_data` with the ORIGINAL string, which raises KeyError
when the caller used any non-lowercase spelling. -/
def create_primitive (primitive_type : String) (size : ℚ)
    (location rotation : ℚ × ℚ × ℚ) (name : Option String) (t : ℚ) :
    Except PyErr Env :=
  if pyLower primitive_type ∉ valid_primitives then
    Except.ok [("status", Value.str "error"),
      ("message", Value.str ("Invalid primitive type \"" ++ primitive_type ++
        "\". Valid options: [\x27cube\x27, \x27sphere\x27, \x27cylinder\x27, \x27cone\x27, \x27plane\x27, \x27torus\x27]")),
      ("data", Value.dict []),
      ("execution_time", Value.num t)]
  else if size ≤ 0 then
    Except.ok [("status", Value.str "error"),
      ("message", Value.str "Size must be greater than 0"),
      ("data", Value.dict []),
      ("execution_time", Value.num t)]
  else
    let objName := match name with
      | none => pyCapitalize primitive_type ++ ".001"
      | some n => n
    match geometry_data primitive_type with
    | none => Except.error (PyErr.keyError primitive_type)
    | some vf =>
      Except.ok [("status", Value.str "success"),
        ("message", Value.str (pyCapitalize primitive_type ++
          " primitive created successfully")),
        ("data", Value.dict [
          ("object_name", Value.str objName),
          ("primitive_type", Value.str primitive_type),
          ("location", triple location),
          ("rotation", triple rotation),
          ("size", Value.num size),
          ("vertex_count", Value.int vf.1),
          ("face_count", Value.int vf.2)]),
        ("execution_time", Value.num t)]

/-- modeling_tools.extrude_faces (lines 114-163). -/
def extrude_faces (object_name : String) (face_indices : List ℤ)
    (extrude_distance : ℚ) (direction : ℚ × ℚ × ℚ) (t : ℚ) : Env :=
  if face_indices = [] then
    [("status", Value.str "error"),
     ("message", Value.str "No faces selected for extrusion"),
     ("data", Value.dict []),
     ("execution_time", Value.num t)]
  else
    [("status", Value.str "success"),
     ("message", Value.str ("Extruded " ++ toString face_indices.length ++
       " faces successfully")),
     ("data", Value.dict [
       ("object_name", Value.str object_name),
       ("extruded_faces", Value.int face_indices.length),
       ("extrude_distance", Value.num extrude_distance),
       ("direction", triple direction)]),
     ("execution_time", Value.num t)]

/-- modeling_tools.subdivide_surface (lines 166-213). -/
def subdivide_surface (object_name : String) (subdivision_level : ℤ)
    (smooth : Bool) (t : ℚ) : Env :=
  if subdivision_level < 1 ∨ subdivision_level > 10 then
    [("status", Value.str "error"),
     ("message", Value.str "Subdivision level must be between 1 and 10"),
     ("data", Value.dict []),
     ("execution_time", Value.num t)]
  else
    let base_vertices : ℤ := 8
    let new_vertex_count : ℤ := base_vertices * 4 ^ subdivision_level.toNat
    [("status", Value.str "success"),
     ("message", Value.str ("Subdivision surface applied at level " ++
       toString subdivision_level)),
     ("data", Value.dict [
       ("object_name", Value.str object_name),
       ("subdivision_level", Value.int subdivision_level),
       ("smooth_shading", Value.bool smooth),
       ("new_vertex_count", Value.int new_vertex_count),
       ("performance_impact", Value.str
         (if subdivision_level > 3 then "high"
          else if subdivision_level > 1 then "medium" else "low"))]),
     ("execution_time", Value.num t)]

/-- modeling_tools, lines 241/297: the valid mirror/array axes. -/
def valid_axes : List String := ["X", "Y", "Z"]

/-- modeling_tools.apply_mirror_modifier (lines 216-261). -/
def apply_mirror_modifier (object_name axis : String) (use_clipping : Bool)
    (merge_threshold : ℚ) (t : ℚ) : Env :=
  if pyUpper axis ∉ valid_axes then
    [("status", Value.str "error"),
     ("message", Value.str ("Invalid axis \"" ++ axis ++
       "\". Valid options: [\x27X\x27, \x27Y\x27, \x27Z\x27]")),
     ("data", Value.dict []),
     ("execution_time", Value.num t)]
  else
    [("status", Value.str "success"),
     ("message", Value.str ("Mirror modifier applied on " ++ pyUpper axis ++
       " axis")),
     ("data", Value.dict [
       ("object_name", Value.str object_name),
       ("mirror_axis", Value.str (pyUpper axis)),
       ("use_clipping", Value.bool use_clipping),
       ("merge_threshold", Value.num merge_threshold),
       ("estimated_vertex_doubling", Value.bool true)]),
     ("execution_time", Value.num t)]

/-- modeling_tools.create_array_modifier (lines 264-317). -/
def create_array_modifier (object_name : String) (count : ℤ)
    (offset_distance : ℚ) (axis : String) (t : ℚ) : Env :=
  if count < 1 then
    [("status", Value.str "error"),
     ("message", Value.str "Array count must be at least 1"),
     ("data", Value.dict []),
     ("execution_time", Value.num t)]
  else if pyUpper axis ∉ valid_axes then
    [("status", Value.str "error"),
     ("message", Value.str ("Invalid axis \"" ++ axis ++
       "\". Valid options: [\x27X\x27, \x27Y\x27, \x27Z\x27]")),
     ("data", Value.dict []),
     ("execution_time", Value.num t)]
  else
    [("status", Value.str "success"),
     ("message", Value.str ("Array modifier created with " ++ toString count ++
       " instances")),
     ("data", Value.dict [
       ("object_name", Value.str object_name),
       ("total_instances", Value.int count),
       ("offset_distance", Value.num offset_distance),
       ("array_axis", Value.str (pyUpper axis)),
       ("total_length", Value.num (offset_distance * ((count : ℚ) - 1)))]),
     ("execution_time", Value.num t)]

/-- shading_tools.create_pbr_material, lines 45-46: all channels of an RGB
color lie in [0, 1]. -/
def colorInRange (c : ℚ × ℚ × ℚ) : Prop :=
  (0 ≤ c.1 ∧ c.1 ≤ 1) ∧ (0 ≤ c.2.1 ∧ c.2.1 ≤ 1) ∧ (0 ≤ c.2.2 ∧ c.2.2 ≤ 1)

instance (c : ℚ × ℚ × ℚ) : Decidable (colorInRange c) := by
  unfold colorInRange; infer_instance

/-- shading_tools.create_pbr_material (lines 13-93). -/
def create_pbr_material (material_name : String) (base_color : ℚ × ℚ × ℚ)
    (metallic roughness normal_strength : ℚ) (emission_color : ℚ × ℚ × ℚ)
    (emission_strength : ℚ) (t : ℚ) : Env :=
  if ¬ (colorInRange base_color ∧ colorInRange emission_color) then
    [("status", Value.str "error"),
     ("message", Value.str "Color values must be between 0.0 and 1.0"),
     ("data", Value.dict []),
     ("execution_time", Value.num t)]
  else if ¬ (0 ≤ metallic ∧ metallic ≤ 1) then
    [("status", Value.str "error"),
     ("message", Value.str "Metallic value must be between 0.0 and 1.0"),
     ("data", Value.dict []),
     ("execution_time", Value.num t)]
  else if ¬ (0 ≤ roughness ∧ roughness ≤ 1) then
    [("status", Value.str "error"),
     ("message", Value.str "Roughness value must be between 0.0 and 1.0"),
     ("data", Value.dict []),
     ("execution_time", Value.num t)]
  else
    let material_type := if metallic > 0.7 then "Metallic" else "Dielectric"
    let surface_type :=
      if roughness < 0.3 then "Glossy"
      else if roughness > 0.7 then "Rough" else "Satin"
    [("status", Value.str "success"),
     ("message", Value.str ("PBR material \"" ++ material_name ++
       "\" created successfully")),
     ("data", Value.dict [
       ("material_name", Value.str material_name),
       ("material_type", Value.str "PBR"),
       ("surface_classification", Value.str (material_type ++ " " ++ surface_type)),
       ("properties", Value.dict [
         ("base_color", triple base_color),
         ("metallic", Value.num metallic),
         ("roughness", Value.num roughness),
         ("normal_strength", Value.num normal_strength),
         ("emission_color", triple emission_color),
         ("emission_strength", Value.num emission_strength)]),
       ("render_engine_compatibility", Value.list
         [Value.str "Cycles", Value.str "Eevee", Value.str "Arnold",
          Value.str "V-Ray"])]),
     ("execution_time", Value.num t)]

/-- shading_tools.apply_material_to_object (lines 96-137). -/
def apply_material_to_object (object_name material_name : String)
    (material_slot : ℤ) (t : ℚ) : Env :=
  if material_slot < 0 then
    [("status", Value.str "error"),
     ("message", Value.str "Material slot must be 0 or greater"),
     ("data", Value.dict []),
     ("execution_time", Value.num t)]
  else
    [("status", Value.str "success"),
     ("message", Value.str ("Material \"" ++ material_name ++
       "\" applied to \"" ++ object_name ++ "\"")),
     ("data", Value.dict [
       ("object_name", Value.str object_name),
       ("material_name", Value.str material_name),
       ("material_slot", Value.int material_slot),
       ("application_method", Value.str "direct_assignment")]),
     ("execution_time", Value.num t)]

/-- shading_tools.create_procedural_texture, line 168: the valid texture
types. -/
def valid_types : List String :=
  ["noise", "voronoi", "wave", "magic", "brick", "checker"]

/-- shading_tools.create_procedural_texture, line 179: the default two-stop
black-to-white color ramp. -/
def default_color_ramp : List (ℚ × (ℚ × ℚ × ℚ)) :=
  [(0, (0, 0, 0)), (1, (1, 1, 1))]

/-- shading_tools.create_procedural_texture (lines 140-197). -/
def create_procedural_texture (texture_name texture_type : String)
    (scale detail distortion : ℚ)
    (color_ramp : Option (List (ℚ × (ℚ × ℚ × ℚ)))) (t : ℚ) : Env :=
  if pyLower texture_type ∉ valid_types then
    [("status", Value.str "error"),
     ("message", Value.str ("Invalid texture type \"" ++ texture_type ++
       "\". Valid options: [\x27noise\x27, \x27voronoi\x27, \x27wave\x27, \x27magic\x27, \x27brick\x27, \x27checker\x27]")),
     ("data", Value.dict []),
     ("execution_time", Value.num t)]
  else
    let ramp := match color_ramp with
      | none => default_color_ramp
      | some r => r
    [("status", Value.str "success"),
     ("message", Value.str ("Procedural texture \"" ++ texture_name ++
       "\" created")),
     ("data", Value.dict [
       ("texture_name", Value.str texture_name),
       ("texture_type", Value.str texture_type),
       ("properties", Value.dict [
         ("scale", Value.num scale),
         ("detail", Value.num detail),
         ("distortion", Value.num distortion),
         ("color_ramp_stops", Value.int ramp.length)]),
       ("node_type", Value.str "procedural"),
       ("output_type", Value.str "color_and_factor")]),
     ("execution_time", Value.num t)]

/-- One call to any skill of the library, with its full argument tuple. -/
inductive SkillCall where
  | createPrimitive (primitive_type : String) (size : ℚ)
      (location rotation : ℚ × ℚ × ℚ) (name : Option String)
  | extrudeFaces (object_name : String) (face_indices : List ℤ)
      (extrude_distance : ℚ) (direction : ℚ × ℚ × ℚ)
  | subdivideSurface (object_name : String) (subdivision_level : ℤ)
      (smooth : Bool)
  | applyMirrorModifier (object_name axis : String) (use_clipping : Bool)
      (merge_threshold : ℚ)
  | createArrayModifier (object_name : String) (count : ℤ)
      (offset_distance : ℚ) (axis : String)
  | createPbrMaterial (material_name : String) (base_color : ℚ × ℚ × ℚ)
      (metallic roughness normal_strength : ℚ) (emission_color : ℚ × ℚ × ℚ)
      (emission_strength : ℚ)
  | applyMaterialToObject (object_name material_name : String)
      (material_slot : ℤ)
  | createProceduralTexture (texture_name texture_type : String)
      (scale detail distortion : ℚ)
      (color_ramp : Option (List (ℚ × (ℚ × ℚ × ℚ))))

/-- Runs a skill call; `t` is the elapsed wall-clock time the call observes.
Only `create_primitive` can raise; the other skills always return an
envelope. -/
def runSkill : SkillCall → ℚ → Except PyErr Env
  | SkillCall.createPrimitive pt sz loc rot nm, t =>
      create_primitive pt sz loc rot nm t
  | SkillCall.extrudeFaces obj fi ed dir, t =>
      Except.ok (extrude_faces obj fi ed dir t)
  | SkillCall.subdivideSurface obj lvl sm, t =>
      Except.ok (subdivide_surface obj lvl sm t)
  | SkillCall.applyMirrorModifier obj ax clip thr, t =>
      Except.ok (apply_mirror_modifier obj ax clip thr t)
  | SkillCall.createArrayModifier obj cnt off ax, t =>
      Except.ok (create_array_modifier obj cnt off ax t)
  | SkillCall.createPbrMaterial nm bc met rou ns ec es, t =>
      Except.ok (create_pbr_material nm bc met rou ns ec es t)
  | SkillCall.applyMaterialToObject obj mat slot, t =>
      Except.ok (apply_material_to_object obj mat slot t)
  | SkillCall.createProceduralTexture nm ty sc de di ramp, t =>
      Except.ok (create_procedural_texture nm ty sc de di ramp t)

/-- The value stored under a key of an envelope. -/
def envLookup (env : Env) (k : String) : Option Value :=
  List.lookup k env

/-- The value stored under a key of the envelope's `data` mapping. -/
def dataLookup (env : Env) (k : String) : Option Value :=
  match envLookup env "data" with
  | some (Value.dict d) => List.lookup k d
  | _ => none

/-- The value stored under a key of `data.properties`. -/
def propsLookup (env : Env) (k : String) : Option Value :=
  match dataLookup env "properties" with
  | some (Value.dict p) => List.lookup k p
  | _ => none

/-- The `data` mapping of the envelope a call returns, `none` when the call
raised instead of returning. -/
def dataOf : Except PyErr Env → Option Value
  | Except.ok env => envLookup env "data"
  | Except.error _ => none

/-- The response-envelope contract of the spec: exactly the four keys in
order, `execution_time` equal to the non-negative measured time, and empty
`data` whenever the status is an error. -/
def envContract (t : ℚ) (env : Env) : Prop :=
  env.map Prod.fst = ["status", "message", "data", "execution_time"] ∧
  envLookup env "execution_time" = some (Value.num t) ∧ 0 ≤ t ∧
  (envLookup env "status" = some (Value.str "error") →
    envLookup env "data" = some (Value.dict []))

/-- The `data`-mapping entry under key `k` of the envelope a call returned,
`none` when the call raised. -/
def okDataLookup (r : Except PyErr Env) (k : String) : Option Value :=
  match r with
  | Except.ok env => dataLookup env k
  | Except.error _ => none

/-- C1: the claim promises that every primitive_type whose lowercase form is
valid yields (without any exception) a success envelope with the table's
vertex/face counts. The code violates it: `"Sphere"` passes the
case-insensitive validation but the geometry table is then indexed with the
original-case string, raising KeyError. The all-lowercase spec example
`create_primitive("sphere", size=3.0, location=(5,0,2))` does succeed with
vertex_count 482 and face_count 480. -/
theorem create_primitive_mixed_case_keyerror :
    (pyLower "Sphere" ∈ valid_primitives) ∧
    create_primitive "Sphere" 2 (0, 0, 0) (0, 0, 0) none 0 =
      Except.error (PyErr.keyError "Sphere") ∧
    okDataLookup (create_primitive "sphere" 3 (5, 0, 2) (0, 0, 0) none 0)
      "vertex_count" = some (Value.int 482) ∧
    okDataLookup (create_primitive "sphere" 3 (5, 0, 2) (0, 0, 0) none 0)
      "face_count" = some (Value.int 480) := by
  refine ⟨by decide, ?_, ?_, ?_⟩ <;> (norm_num [create_primitive]; rfl)

/-- C3: subdivide_surface errors exactly when the level is outside [1, 10];
on success it reports 8 * 4 ^ level vertices and classifies the performance
impact as low (level ≤ 1), medium (1 < level ≤ 3) or high (level > 3). -/
theorem subdivide_surface_contract (obj : String) (lvl : ℤ) (sm : Bool)
    (t : ℚ) :
    (envLookup (subdivide_surface obj lvl sm t) "status" =
        some (Value.str "error") ↔ ¬ (1 ≤ lvl ∧ lvl ≤ 10)) ∧
    (1 ≤ lvl ∧ lvl ≤ 10 →
      dataLookup (subdivide_surface obj lvl sm t) "new_vertex_count" =
        some (Value.int (8 * 4 ^ lvl.toNat)) ∧
      (lvl ≤ 1 →
        dataLookup (subdivide_surface obj lvl sm t) "performance_impact" =
          some (Value.str "low")) ∧
      (1 < lvl ∧ lvl ≤ 3 →
        dataLookup (subdivide_surface obj lvl sm t) "performance_impact" =
          some (Value.str "medium")) ∧
      (3 < lvl →
        dataLookup (subdivide_surface obj lvl sm t) "performance_impact" =
          some (Value.str "high"))) := by
  unfold subdivide_surface
  split_ifs with h h3 h1
  · exact ⟨iff_of_true rfl (by omega), fun hc => absurd hc (by omega)⟩
  all_goals refine ⟨iff_of_false
    (fun hc => absurd (Value.str.inj (Option.some.inj hc)) (by decide))
    (by omega), fun hc => ⟨rfl, ?_, ?_, ?_⟩⟩
  all_goals first
    | exact fun hx => rfl
    | exact fun hx => absurd hx (by omega)

/-- C3 witness: at level 2 the skill reports 8 * 4 ^ 2 = 128 vertices and a
medium performance impact. -/
theorem subdivide_surface_contract_witness :
    dataLookup (subdivide_surface "Cube.001" 2 true 0) "new_vertex_count" =
      some (Value.int 128) ∧
    dataLookup (subdivide_surface "Cube.001" 2 true 0) "performance_impact" =
      some (Value.str "medium") :=
  ⟨((subdivide_surface_contract "Cube.001" 2 true 0).2
      ⟨by decide, by decide⟩).1,
   ((subdivide_surface_contract "Cube.001" 2 true 0).2
      ⟨by decide, by decide⟩).2.2.1 ⟨by decide, by decide⟩⟩

/-- C7: extrude_faces errors exactly when face_indices is empty; every
non-empty index list (indices are never validated) yields a success envelope
counting the faces and echoing the distance and direction. -/
theorem extrude_faces_contract (obj : String) (fi : List ℤ) (dist : ℚ)
    (dir : ℚ × ℚ × ℚ) (t : ℚ) :
    (envLookup (extrude_faces obj fi dist dir t) "status" =
        some (Value.str "error") ↔ fi = []) ∧
    (fi ≠ [] →
      envLookup (extrude_faces obj fi dist dir t) "status" =
        some (Value.str "success") ∧
      dataLookup (extrude_faces obj fi dist dir t) "extruded_faces" =
        some (Value.int fi.length) ∧
      dataLookup (extrude_faces obj fi dist dir t) "extrude_distance" =
        some (Value.num dist) ∧
      dataLookup (extrude_faces obj fi dist dir t) "direction" =
        some (triple dir)) := by
  unfold extrude_faces
  split_ifs with h
  · exact ⟨iff_of_true rfl h, fun hne => absurd h hne⟩
  · exact ⟨iff_of_false
      (fun hc => absurd (Value.str.inj (Option.some.inj hc)) (by decide)) h,
      fun _ => ⟨rfl, rfl, rfl, rfl⟩⟩

/-- C7 witness: a list holding a negative and a huge index succeeds and
reports 2 extruded faces. -/
theorem extrude_faces_contract_witness :
    envLookup (extrude_faces "Cube.001" [-5, 1000000000] 1 (0, 0, 1) 0)
      "status" = some (Value.str "success") ∧
    dataLookup (extrude_faces "Cube.001" [-5, 1000000000] 1 (0, 0, 1) 0)
      "extruded_faces" = some (Value.int 2) :=
  ⟨((extrude_faces_contract "Cube.001" [-5, 1000000000] 1 (0, 0, 1) 0).2
      (by decide)).1,
   ((extrude_faces_contract "Cube.001" [-5, 1000000000] 1 (0, 0, 1) 0).2
      (by decide)).2.1⟩

/-- C10: on success apply_mirror_modifier reports the uppercased axis and
echoes the object name, clipping flag and merge threshold unchanged. -/
theorem apply_mirror_modifier_echo (obj ax : String) (clip : Bool)
    (thr t : ℚ)
    (h : envLookup (apply_mirror_modifier obj ax clip thr t) "status" =
      some (Value.str "success")) :
    dataLookup (apply_mirror_modifier obj ax clip thr t) "mirror_axis" =
      some (Value.str (pyUpper ax)) ∧
    dataLookup (apply_mirror_modifier obj ax clip thr t) "object_name" =
      some (Value.str obj) ∧
    dataLookup (apply_mirror_modifier obj ax clip thr t) "use_clipping" =
      some (Value.bool clip) ∧
    dataLookup (apply_mirror_modifier obj ax clip thr t) "merge_threshold" =
      some (Value.num thr) := by
  unfold apply_mirror_modifier at h ⊢
  split_ifs at h ⊢ with hax
  all_goals first
    | exact ⟨rfl, rfl, rfl, rfl⟩
    | exact absurd (Value.str.inj (Option.some.inj h)) (by decide)

/-- C10 witness: a lowercase axis argument "z" is reported as "Z" while the
other arguments are echoed unchanged. -/
theorem apply_mirror_modifier_echo_witness :
    dataLookup (apply_mirror_modifier "Character.001" "z" true (1/1000) 0)
      "mirror_axis" = some (Value.str "Z") ∧
    dataLookup (apply_mirror_modifier "Character.001" "z" true (1/1000) 0)
      "object_name" = some (Value.str "Character.001") :=
  ⟨(apply_mirror_modifier_echo "Character.001" "z" true (1/1000) 0 rfl).1,
   (apply_mirror_modifier_echo "Character.001" "z" true (1/1000) 0 rfl).2.1⟩

/-- C4: on every successful call the surface classification is the
material type (Metallic exactly when metallic > 0.7, else Dielectric)
concatenated by a space with the surface type (Glossy when roughness < 0.3,
Rough when roughness > 0.7, else Satin). -/
theorem create_pbr_material_classification (nm : String) (bc : ℚ × ℚ × ℚ)
    (met rou ns : ℚ) (ec : ℚ × ℚ × ℚ) (es t : ℚ)
    (h : envLookup (create_pbr_material nm bc met rou ns ec es t) "status" =
      some (Value.str "success")) :
    dataLookup (create_pbr_material nm bc met rou ns ec es t)
      "surface_classification" =
      some (Value.str
        ((if met > 0.7 then "Metallic" else "Dielectric") ++ " " ++
         (if rou < 0.3 then "Glossy"
          else if rou > 0.7 then "Rough" else "Satin"))) := by
  unfold create_pbr_material at h ⊢
  split_ifs at h ⊢
  all_goals first
    | rfl
    | exact absurd (Value.str.inj (Option.some.inj h)) (by decide)

/-- C4 witness: metallic 0.9 and roughness 0.3 are classified as
"Metallic Satin". -/
theorem create_pbr_material_classification_witness :
    dataLookup
      (create_pbr_material "Steel" (0.8, 0.8, 0.8) 0.9 0.3 1 (0, 0, 0) 0 0)
      "surface_classification" = some (Value.str "Metallic Satin") := by
  have h := create_pbr_material_classification "Steel" (0.8, 0.8, 0.8)
    0.9 0.3 1 (0, 0, 0) 0 0 (by norm_num [create_pbr_material, colorInRange]; rfl)
  rw [if_pos (show (0.9 : ℚ) > 0.7 by norm_num),
    if_neg (show ¬ (0.3 : ℚ) < 0.3 by norm_num),
    if_neg (show ¬ (0.3 : ℚ) > 0.7 by norm_num)] at h
  exact h

/-- C5 counterexample: the claim demands an error envelope whenever the axis
argument is not literally one of X, Y, Z, but the lowercase axis "x" (with a
valid count) is accepted: the code checks the uppercased axis. -/
theorem create_array_modifier_lowercase_axis_counterexample :
    ("x" ∈ valid_axes → False) ∧ ¬ ((5 : ℤ) < 1) ∧
    envLookup (create_array_modifier "Pillar" 5 3 "x" 0) "status" =
      some (Value.str "success") ∧
    envLookup (create_array_modifier "Pillar" 5 3 "x" 0) "status" ≠
      some (Value.str "error") := by
  refine ⟨by decide, by decide, rfl, fun hc => ?_⟩
  exact absurd (Value.str.inj (Option.some.inj hc)) (by decide)

/-- C5 (amended): create_array_modifier errors when count < 1, errors when
the UPPERCASED axis is not one of X, Y, Z, and otherwise succeeds reporting
total_instances = count and total_length = offset_distance * (count - 1). -/
theorem create_array_modifier_contract (obj : String) (cnt : ℤ) (off : ℚ)
    (ax : String) (t : ℚ) :
    (cnt < 1 →
      envLookup (create_array_modifier obj cnt off ax t) "status" =
        some (Value.str "error")) ∧
    (¬ cnt < 1 → pyUpper ax ∉ valid_axes →
      envLookup (create_array_modifier obj cnt off ax t) "status" =
        some (Value.str "error")) ∧
    (¬ cnt < 1 → pyUpper ax ∈ valid_axes →
      envLookup (create_array_modifier obj cnt off ax t) "status" =
        some (Value.str "success") ∧
      dataLookup (create_array_modifier obj cnt off ax t) "total_instances" =
        some (Value.int cnt) ∧
      dataLookup (create_array_modifier obj cnt off ax t) "total_length" =
        some (Value.num (off * ((cnt : ℚ) - 1)))) := by
  unfold create_array_modifier
  split_ifs with h1 h2
  · exact ⟨fun _ => rfl, fun hc => absurd h1 hc, fun hc _ => absurd h1 hc⟩
  all_goals first
    | exact ⟨fun hc => absurd hc h1, fun _ _ => rfl,
        fun _ hax => absurd hax (by assumption)⟩
    | exact ⟨fun hc => absurd hc h1, fun _ hax => absurd (by assumption) hax,
        fun _ _ => ⟨rfl, rfl, rfl⟩⟩

/-- C5 witness: count 5, offset 3 along X succeed with 5 instances and total
length 12. -/
theorem create_array_modifier_contract_witness :
    envLookup (create_array_modifier "Pillar" 5 3 "X" 0) "status" =
      some (Value.str "success") ∧
    dataLookup (create_array_modifier "Pillar" 5 3 "X" 0) "total_instances" =
      some (Value.int 5) ∧
    dataLookup (create_array_modifier "Pillar" 5 3 "X" 0) "total_length" =
      some (Value.num 12) := by
  have h := (create_array_modifier_contract "Pillar" 5 3 "X" 0).2.2
    (by decide) (by decide)
  norm_num at h
  exact h

/-- C6: with a valid texture type, an absent color_ramp is replaced by the
default two-stop black-to-white ramp (so 2 stops are reported), while a
provided ramp, even an empty one, reports its own length. -/
theorem create_procedural_texture_ramp (nm ty : String) (sc de di : ℚ)
    (ramp : Option (List (ℚ × (ℚ × ℚ × ℚ)))) (t : ℚ)
    (hty : pyLower ty ∈ valid_types) :
    (ramp = none →
      propsLookup (create_procedural_texture nm ty sc de di ramp t)
        "color_ramp_stops" = some (Value.int 2)) ∧
    (∀ r, ramp = some r →
      propsLookup (create_procedural_texture nm ty sc de di ramp t)
        "color_ramp_stops" = some (Value.int r.length)) := by
  unfold create_procedural_texture
  rw [if_neg (not_not_intro hty)]
  constructor
  · rintro rfl
    rfl
  · rintro r rfl
    rfl

/-- C6 witness: with texture type "noise", no ramp reports 2 stops and an
explicitly empty ramp reports 0 stops. -/
theorem create_procedural_texture_ramp_witness :
    propsLookup (create_procedural_texture "T" "noise" 1 2 0 none 0)
      "color_ramp_stops" = some (Value.int 2) ∧
    propsLookup (create_procedural_texture "T" "noise" 1 2 0 (some []) 0)
      "color_ramp_stops" = some (Value.int 0) :=
  ⟨(create_procedural_texture_ramp "T" "noise" 1 2 0 none 0 (by decide)).1 rfl,
   (create_procedural_texture_ramp "T" "noise" 1 2 0 (some []) 0
      (by decide)).2 [] rfl⟩

/-- C9: normal_strength and emission_strength are never range-checked: any
values whatsoever are accepted and echoed verbatim in data.properties,
provided the colors, metallic and roughness pass their [0, 1] checks. -/
theorem create_pbr_material_no_strength_validation (nm : String)
    (bc ec : ℚ × ℚ × ℚ) (met rou ns es t : ℚ)
    (hbc : colorInRange bc) (hec : colorInRange ec)
    (hm : 0 ≤ met ∧ met ≤ 1) (hr : 0 ≤ rou ∧ rou ≤ 1) :
    envLookup (create_pbr_material nm bc met rou ns ec es t) "status" =
      some (Value.str "success") ∧
    propsLookup (create_pbr_material nm bc met rou ns ec es t)
      "normal_strength" = some (Value.num ns) ∧
    propsLookup (create_pbr_material nm bc met rou ns ec es t)
      "emission_strength" = some (Value.num es) := by
  unfold create_pbr_material
  split_ifs
  all_goals first
    | exact ⟨rfl, rfl, rfl⟩
    | exact absurd (And.intro hbc hec) (by assumption)

/-- C9 witness: a negative normal strength and a huge emission strength are
accepted and echoed unchanged. -/
theorem create_pbr_material_no_strength_validation_witness :
    envLookup
      (create_pbr_material "Lamp" (1, 1, 1) 0 (1/2) (-5) (1, 1, 1) 1000000000 0)
      "status" = some (Value.str "success") ∧
    propsLookup
      (create_pbr_material "Lamp" (1, 1, 1) 0 (1/2) (-5) (1, 1, 1) 1000000000 0)
      "normal_strength" = some (Value.num (-5)) ∧
    propsLookup
      (create_pbr_material "Lamp" (1, 1, 1) 0 (1/2) (-5) (1, 1, 1) 1000000000 0)
      "emission_strength" = some (Value.num 1000000000) :=
  create_pbr_material_no_strength_validation "Lamp" (1, 1, 1) (1, 1, 1)
    0 (1/2) (-5) 1000000000 0
    (by norm_num [colorInRange]) (by norm_num [colorInRange])
    (by norm_num) (by norm_num)

/-- Any envelope of the literal shape every skill constructs satisfies the
contract, provided the measured time is non-negative and the data mapping is
empty whenever the status is "error". -/
theorem envContract_mk (st : String) (msg : Value) (d : List (String × Value))
    (t : ℚ) (ht : 0 ≤ t) (hd : st = "error" → d = []) :
    envContract t [("status", Value.str st), ("message", msg),
      ("data", Value.dict d), ("execution_time", Value.num t)] := by
  refine ⟨rfl, rfl, ht, fun h => ?_⟩
  have h2 : st = "error" := Value.str.inj (Option.some.inj h)
  have h3 := hd h2
  subst h3
  rfl

/-- C2: whatever skill is called and with whatever arguments, an envelope
that is returned carries exactly the four keys status, message, data and
execution_time in order, its execution_time is the non-negative measured
time, and its data mapping is empty whenever the status is "error". -/
theorem skill_envelope_contract (c : SkillCall) (t : ℚ) (ht : 0 ≤ t)
    (env : Env) (h : runSkill c t = Except.ok env) : envContract t env := by
  cases c with
  | createPrimitive pt sz loc rot nm =>
    simp only [runSkill] at h
    unfold create_primitive at h
    split_ifs at h
    all_goals try (cases hg : geometry_data pt <;> simp only [hg] at h)
    all_goals first
      | exact Except.noConfusion h
      | (injection h with h2; subst h2;
         exact envContract_mk _ _ _ _ ht (fun _ => rfl))
      | (injection h with h2; subst h2;
         exact envContract_mk _ _ _ _ ht (fun hc => absurd hc (by decide)))
  | extrudeFaces obj fi ed dir =>
    simp only [runSkill] at h
    injection h with h2
    subst h2
    unfold extrude_faces
    split_ifs
    all_goals first
      | exact envContract_mk _ _ _ _ ht (fun _ => rfl)
      | exact envContract_mk _ _ _ _ ht (fun hc => absurd hc (by decide))
  | subdivideSurface obj lvl sm =>
    simp only [runSkill] at h
    injection h with h2
    subst h2
    unfold subdivide_surface
    split_ifs
    all_goals first
      | exact envContract_mk _ _ _ _ ht (fun _ => rfl)
      | exact envContract_mk _ _ _ _ ht (fun hc => absurd hc (by decide))
  | applyMirrorModifier obj ax clip thr =>
    simp only [runSkill] at h
    injection h with h2
    subst h2
    unfold apply_mirror_modifier
    split_ifs
    all_goals first
      | exact envContract_mk _ _ _ _ ht (fun _ => rfl)
      | exact envContract_mk _ _ _ _ ht (fun hc => absurd hc (by decide))
  | createArrayModifier obj cnt off ax =>
    simp only [runSkill] at h
    injection h with h2
    subst h2
    unfold create_array_modifier
    split_ifs
    all_goals first
      | exact envContract_mk _ _ _ _ ht (fun _ => rfl)
      | exact envContract_mk _ _ _ _ ht (fun hc => absurd hc (by decide))
  | createPbrMaterial nm bc met rou ns ec es =>
    simp only [runSkill] at h
    injection h with h2
    subst h2
    unfold create_pbr_material
    split_ifs
    all_goals first
      | exact envContract_mk _ _ _ _ ht (fun _ => rfl)
      | exact envContract_mk _ _ _ _ ht (fun hc => absurd hc (by decide))
  | applyMaterialToObject obj mat slot =>
    simp only [runSkill] at h
    injection h with h2
    subst h2
    unfold apply_material_to_object
    split_ifs
    all_goals first
      | exact envContract_mk _ _ _ _ ht (fun _ => rfl)
      | exact envContract_mk _ _ _ _ ht (fun hc => absurd hc (by decide))
  | createProceduralTexture nm ty sc de di ramp =>
    simp only [runSkill] at h
    injection h with h2
    subst h2
    unfold create_procedural_texture
    split_ifs
    all_goals first
      | exact envContract_mk _ _ _ _ ht (fun _ => rfl)
      | exact envContract_mk _ _ _ _ ht (fun hc => absurd hc (by decide))

/-- C2 witness: the envelope of an erroring extrude_faces call at measured
time 0 satisfies the contract. -/
theorem skill_envelope_contract_witness :
    envContract 0 [("status", Value.str "error"),
      ("message", Value.str "No faces selected for extrusion"),
      ("data", Value.dict []), ("execution_time", Value.num 0)] :=
  skill_envelope_contract (SkillCall.extrudeFaces "Cube.001" [] 1 (0, 0, 1))
    0 le_rfl _ rfl

/-- C8: every skill is deterministic in its data field: two calls with the
same arguments observe the same data mapping even when the measured
execution times of the two calls differ. -/
theorem skill_data_deterministic (c : SkillCall) (t1 t2 : ℚ) :
    dataOf (runSkill c t1) = dataOf (runSkill c t2) := by
  cases c with
  | createPrimitive pt sz loc rot nm =>
    simp only [runSkill, create_primitive]
    split_ifs <;> try rfl
    cases hg : geometry_data pt <;> simp only [hg]
    rfl
  | extrudeFaces obj fi ed dir =>
    simp only [runSkill, extrude_faces]
    split_ifs <;> rfl
  | subdivideSurface obj lvl sm =>
    simp only [runSkill, subdivide_surface]
    split_ifs <;> rfl
  | applyMirrorModifier obj ax clip thr =>
    simp only [runSkill, apply_mirror_modifier]
    split_ifs <;> rfl
  | createArrayModifier obj cnt off ax =>
    simp only [runSkill, create_array_modifier]
    split_ifs <;> rfl
  | createPbrMaterial nm bc met rou ns ec es =>
    simp only [runSkill, create_pbr_material]
    split_ifs <;> rfl
  | applyMaterialToObject obj mat slot =>
    simp only [runSkill, apply_material_to_object]
    split_ifs <;> rfl
  | createProceduralTexture nm ty sc de di ramp =>
    simp only [runSkill, create_procedural_texture]
    split_ifs <;> rfl
